import Mathlib

/-!
Shallow embedding of the Identity & Roster Consistency Layer of
`src/server.js` (Express handlers over the MySQL tables `users`,
`students`, `classes`).

Modelling conventions:
* A table is a list of rows (in table order); `LIMIT 1` / `rows[0]` is
  `List.head?`.
* Request-body string fields are `String` with `""` standing for a
  missing/empty (falsy) field, matching the JS truthiness checks
  (`!email`, `grade && section`, `phone || null`); the boolean field
  `isActive` is `Option Bool` so that `isActive !== false` is
  `isActive != some false`.
* `bcrypt.hash(p, 12)` and `bcrypt.compare` are external: handlers take
  them as function parameters (`bcryptHash`, `bcryptCompare`).
* `jwt.verify` is external: `authenticateToken` takes a verifier
  `String → Option JwtClaims` (`none` = invalid/malformed/expired).
* The try/catch around the best-effort `students`-table writes is
  modelled by a `profileInsertOk` / `profileUpdateOk` flag: `false`
  means the guarded statement threw, so the `students` table is left
  untouched and the handler proceeds (as the catch block does).
* MySQL `LPAD(s, n, c)` pads on the left and TRUNCATES to `n`
  characters when `s` is longer; JS `String.padStart` never truncates.
-/

namespace SchoolMS

/-- A row of the `users` table. -/
structure User where
  id : Nat
  email : String
  password : String
  role : String
  first_name : String
  last_name : String
  phone : Option String
  is_active : Bool
  created_at : Nat
deriving DecidableEq

/-- A row of the `students` (profile) table. -/
structure Student where
  user_id : Nat
  student_id : Option String
  roll_number : Option String
  class_id : Option Nat
  parent_name : Option String
  parent_phone : Option String
  address : Option String
  admission_date : Option Nat
  date_of_birth : Option Nat
  is_active : Bool
deriving DecidableEq

/-- A row of the `classes` table (`section` is a Lean keyword, field is `sect`). -/
structure SchoolClass where
  id : Nat
  grade : String
  sect : String
  name : String
  teacher_id : Option Nat
  is_active : Bool
deriving DecidableEq

/-- The database state: the three tables plus the auto-increment counter
of `users.id`. -/
structure DB where
  users : List User
  students : List Student
  classes : List SchoolClass
  nextUserId : Nat
deriving DecidableEq

/-- JS `x || null` for an optional string request field. -/
def orNull (s : String) : Option String := if s = "" then none else some s

/-- The payload embedded in a session token (`jwt.sign` argument). -/
structure JwtClaims where
  userId : Nat
  email : String
  role : String
deriving DecidableEq

/-- The public user view returned by login/register. -/
structure PublicUser where
  id : Nat
  email : String
  role : String
  first_name : String
  last_name : String
deriving DecidableEq

/-- Outcome of `POST /api/auth/login`. -/
inductive LoginResult where
  | error (status : Nat) (message : String)
  | ok (token : JwtClaims) (user : PublicUser)
deriving DecidableEq

/-- `SELECT ... FROM users WHERE email = ? AND is_active = TRUE`, then `users[0]`. -/
def findLoginUser (db : DB) (email : String) : Option User :=
  (db.users.filter (fun u => u.email == email && u.is_active)).head?

/-- JS `s.startsWith(p)` (an executable model of `String.startsWith`,
character-list structural). -/
def strStartsWith (s p : String) : Bool := p.toList.isPrefixOf s.toList

/-- The dual-mode password check of the login handler: bcrypt comparison
when the stored value starts with the `$2` bcrypt marker, plain-text
`===` comparison otherwise. -/
def passwordValid (bcryptCompare : String → String → Bool)
    (password stored : String) : Bool :=
  if strStartsWith stored "$2" then bcryptCompare password stored
  else password == stored

/-- `POST /api/auth/login` handler. -/
def login (bcryptCompare : String → String → Bool) (db : DB)
    (email password : String) : LoginResult :=
  if email = "" ∨ password = "" then
    .error 400 "Email and password are required"
  else
    match findLoginUser db email with
    | none => .error 401 "Invalid email or password"
    | some u =>
      if passwordValid bcryptCompare password u.password then
        .ok ⟨u.id, u.email, u.role⟩ ⟨u.id, u.email, u.role, u.first_name, u.last_name⟩
      else .error 401 "Invalid email or password"

/-- Outcome of `POST /api/auth/register`. -/
inductive RegisterResult where
  | error (status : Nat) (message : String)
  | created (userId : Nat) (token : JwtClaims) (user : PublicUser)
deriving DecidableEq

/-- `SELECT id FROM users WHERE email = ?` — note: no `is_active` filter,
both active and inactive rows count. -/
def emailExists (db : DB) (email : String) : Bool :=
  db.users.any (fun u => u.email == email)

/-- `POST /api/auth/register` handler. -/
def register (bcryptHash : String → String) (now : Nat) (db : DB)
    (email password firstName lastName role phone : String) :
    RegisterResult × DB :=
  if email = "" ∨ password = "" ∨ firstName = "" ∨ lastName = "" ∨ role = "" then
    (.error 400 "Email, password, first name, last name, and role are required", db)
  else if emailExists db email then
    (.error 409 "User with this email already exists", db)
  else
    let uid := db.nextUserId
    let u : User :=
      { id := uid, email := email, password := bcryptHash password, role := role,
        first_name := firstName, last_name := lastName, phone := orNull phone,
        is_active := true, created_at := now }
    (.created uid ⟨uid, email, role⟩ ⟨uid, email, role, firstName, lastName⟩,
     { db with users := db.users ++ [u], nextUserId := uid + 1 })

/-- Outcome of the token middleware. -/
inductive AuthResult where
  | error (status : Nat) (message : String)
  | ok (claims : JwtClaims)
deriving DecidableEq

/-- JS `String.split(' ')` on the character list: split at every single
space character; `"".split(' ')` is `['']`, trailing separators yield
empty fields. -/
def splitChars : List Char → List (List Char)
  | [] => [[]]
  | c :: rest =>
    if c = ' ' then [] :: splitChars rest
    else
      match splitChars rest with
      | [] => [[c]]
      | w :: ws => (c :: w) :: ws

/-- JS `s.split(' ')`. -/
def splitOnSpace (s : String) : List String := (splitChars s.toList).map String.mk

/-- `authHeader && authHeader.split(' ')[1]`, followed by the `!token`
falsiness check (`undefined` and `""` are both falsy). -/
def extractToken (authHeader : Option String) : Option String :=
  match authHeader with
  | none => none
  | some h =>
    match (splitOnSpace h)[1]? with
    | none => none
    | some t => if t = "" then none else some t

/-- The `authenticateToken` middleware: 401 when no token is presented,
403 when a token is presented but `jwt.verify` rejects it. -/
def authenticateToken (verify : String → Option JwtClaims)
    (authHeader : Option String) : AuthResult :=
  match extractToken authHeader with
  | none => .error 401 "Access token required"
  | some t =>
    match verify t with
    | none => .error 403 "Invalid or expired token"
    | some c => .ok c

/-- JS `String(id).padStart(3, '0')`: left-pad, never truncate. -/
def padStart (s : String) (len : Nat) (c : Char) : String :=
  if len ≤ s.length then s
  else String.mk (List.replicate (len - s.length) c) ++ s

/-- MySQL `LPAD(s, len, c)`: left-pad, and truncate to the leftmost
`len` characters when `s` is longer than `len`. -/
def lpad (s : String) (len : Nat) (c : Char) : String :=
  if len ≤ s.length then String.mk (s.toList.take len)
  else String.mk (List.replicate (len - s.length) c) ++ s

/-- The student code computed by the `POST /api/students` handler:
`` `STU${String(userId).padStart(3, '0')}` ``. -/
def createStudentCode (id : Nat) : String := "STU" ++ padStart (toString id) 3 '0'

/-- The read-side fallback code of the student SELECTs:
`CONCAT('STU', LPAD(u.id, 3, '0'))`. -/
def viewFallbackCode (id : Nat) : String := "STU" ++ lpad (toString id) 3 '0'

/-- The JSON body shape shared by `POST /api/students` and
`PUT /api/students/:id`. -/
structure StudentReq where
  firstName : String
  lastName : String
  email : String
  phone : String
  grade : String
  sect : String
  rollNo : String
  parentName : String
  isActive : Option Bool
deriving DecidableEq

/-- `SELECT id FROM classes WHERE grade = ? AND section = ? AND
is_active = TRUE LIMIT 1`, then `classResult[0].id` when nonempty. -/
def findClass (classes : List SchoolClass) (grade sect : String) : Option Nat :=
  ((classes.filter (fun c => c.grade == grade && c.sect == sect && c.is_active)).head?).map
    (fun c => c.id)

/-- `let classId = null; if (grade && section) { ...lookup... }`. -/
def resolveClassId (classes : List SchoolClass) (grade sect : String) : Option Nat :=
  if grade ≠ "" ∧ sect ≠ "" then findClass classes grade sect else none

/-- Outcome of `POST /api/students`. -/
inductive CreateResult where
  | error (status : Nat) (message : String)
  | created (studentId : Nat) (studentCode : String)
deriving DecidableEq

/-- `POST /api/students` handler. `profileInsertOk = false` means the
`INSERT INTO students ...` inside the try/catch threw: the catch block
logs and the handler still answers 201. -/
def createStudent (bcryptHash : String → String) (profileInsertOk : Bool)
    (now : Nat) (db : DB) (r : StudentReq) : CreateResult × DB :=
  if r.firstName = "" ∨ r.lastName = "" ∨ r.email = "" then
    (.error 400 "First name, last name, and email are required", db)
  else if emailExists db r.email then
    (.error 409 "User with this email already exists", db)
  else
    let uid := db.nextUserId
    let u : User :=
      { id := uid, email := r.email, password := bcryptHash "student123",
        role := "student", first_name := r.firstName, last_name := r.lastName,
        phone := orNull r.phone, is_active := r.isActive != some false,
        created_at := now }
    let db1 : DB := { db with users := db.users ++ [u], nextUserId := uid + 1 }
    let code := createStudentCode uid
    let classId := resolveClassId db1.classes r.grade r.sect
    let db2 : DB :=
      if profileInsertOk then
        { db1 with students := db1.students ++ [{
            user_id := uid, student_id := some code,
            roll_number := orNull r.rollNo, class_id := classId,
            parent_name := orNull r.parentName, parent_phone := none,
            address := none, admission_date := some now, date_of_birth := none,
            is_active := true }] }
      else db1
    (.created uid code, db2)

/-- Outcome of `PUT /api/students/:id` and `DELETE /api/students/:id`. -/
inductive UpdateResult where
  | error (status : Nat) (message : String)
  | ok (message : String)
deriving DecidableEq

/-- `SELECT id FROM users WHERE id = ? AND role = "student"` — note: no
`is_active` filter. -/
def studentExists (db : DB) (id : Nat) : Bool :=
  db.users.any (fun u => u.id == id && u.role == "student")

/-- `SELECT id FROM users WHERE email = ? AND id != ?`. -/
def emailUsedByOther (db : DB) (email : String) (id : Nat) : Bool :=
  db.users.any (fun u => u.email == email && u.id != id)

/-- `PUT /api/students/:id` handler. `profileUpdateOk = false` means the
try block around the class lookup and `UPDATE students ...` threw: the
`students` table is left untouched and the handler still answers 200. -/
def updateStudent (profileUpdateOk : Bool) (db : DB) (id : Nat)
    (r : StudentReq) : UpdateResult × DB :=
  if r.firstName = "" ∨ r.lastName = "" ∨ r.email = "" then
    (.error 400 "First name, last name, and email are required", db)
  else if studentExists db id = false then
    (.error 404 "Student not found", db)
  else if emailUsedByOther db r.email id then
    (.error 409 "Email already in use by another user", db)
  else
    let db1 : DB := { db with users := db.users.map (fun u =>
      if u.id == id && u.role == "student" then
        { u with first_name := r.firstName, last_name := r.lastName,
                 email := r.email, phone := orNull r.phone,
                 is_active := r.isActive != some false }
      else u) }
    let db2 : DB :=
      if profileUpdateOk then
        let classId := resolveClassId db1.classes r.grade r.sect
        { db1 with students := db1.students.map (fun s =>
          if s.user_id == id then
            { s with roll_number := orNull r.rollNo, class_id := classId,
                     parent_name := orNull r.parentName }
          else s) }
      else db1
    (.ok "Student updated successfully", db2)

/-- `DELETE /api/students/:id` handler (soft delete). `profileUpdateOk =
false` means the `UPDATE students ...` in the try/catch threw. -/
def deleteStudent (profileUpdateOk : Bool) (db : DB) (id : Nat) :
    UpdateResult × DB :=
  if studentExists db id = false then
    (.error 404 "Student not found", db)
  else
    let db1 : DB := { db with users := db.users.map (fun u =>
      if u.id == id && u.role == "student" then { u with is_active := false }
      else u) }
    let db2 : DB :=
      if profileUpdateOk then
        { db1 with students := db1.students.map (fun s =>
          if s.user_id == id then { s with is_active := false } else s) }
      else db1
    (.ok "Student deleted successfully", db2)

/-- One row of the student SELECTs' result set. -/
structure StudentView where
  id : Nat
  first_name : String
  last_name : String
  email : String
  phone : Option String
  roll_no : Option String
  parent_name : Option String
  parent_phone : Option String
  address : Option String
  admission_date : Option Nat
  date_of_birth : Option Nat
  is_active : Bool
  created_at : Nat
  grade : Option String
  sect : Option String
  class_name : Option String
  student_id : String
deriving DecidableEq

/-- `LEFT JOIN classes c ON s.class_id = c.id` (class ids are unique,
first match). -/
def findClassRow (classes : List SchoolClass) (cid : Nat) : Option SchoolClass :=
  (classes.filter (fun c => c.id == cid)).head?

/-- One joined output row for a user and an optional profile row;
`student_id` is `COALESCE(s.student_id, CONCAT('STU', LPAD(u.id, 3, '0')))`. -/
def mkView (classes : List SchoolClass) (u : User) (s : Option Student) :
    StudentView :=
  let c := s.bind (fun st => st.class_id.bind (fun cid => findClassRow classes cid))
  { id := u.id, first_name := u.first_name, last_name := u.last_name,
    email := u.email, phone := u.phone,
    roll_no := s.bind (fun st => st.roll_number),
    parent_name := s.bind (fun st => st.parent_name),
    parent_phone := s.bind (fun st => st.parent_phone),
    address := s.bind (fun st => st.address),
    admission_date := s.bind (fun st => st.admission_date),
    date_of_birth := s.bind (fun st => st.date_of_birth),
    is_active := u.is_active, created_at := u.created_at,
    grade := c.map (fun cl => cl.grade), sect := c.map (fun cl => cl.sect),
    class_name := c.map (fun cl => cl.name),
    student_id :=
      match s.bind (fun st => st.student_id) with
      | some code => code
      | none => viewFallbackCode u.id }

/-- `LEFT JOIN students s ON u.id = s.user_id`: a user with no profile
row still yields one output row (with NULL profile columns); a user with
profile rows yields one output row per profile row. -/
def leftJoinProfiles (db : DB) (u : User) : List (Option Student) :=
  match db.students.filter (fun s => s.user_id == u.id) with
  | [] => [none]
  | ps => ps.map some

/-- The joined result set of the student SELECTs, for a `WHERE` filter
`p` on the `users` row. -/
def studentJoinRows (db : DB) (p : User → Bool) : List StudentView :=
  (db.users.filter p).flatMap (fun u => (leftJoinProfiles db u).map (mkView db.classes u))

/-- `GET /api/students`: `WHERE u.role = 'student' AND u.is_active = TRUE
ORDER BY u.created_at DESC`. -/
def listStudents (db : DB) : List StudentView :=
  (studentJoinRows db (fun u => u.role == "student" && u.is_active)).mergeSort
    (fun a b => decide (b.created_at ≤ a.created_at))

/-- `GET /api/students/:id`: `WHERE u.id = ? AND u.role = 'student'`
(no `is_active` filter), 404 when the result set is empty, `result[0]`
otherwise. -/
def getStudent (db : DB) (id : Nat) : Except (Nat × String) StudentView :=
  match (studentJoinRows db (fun u => u.id == id && u.role == "student")).head? with
  | none => .error (404, "Student not found")
  | some v => .ok v

/-- No two `users` rows share an email (the C1 invariant). -/
def uniqueEmails (db : DB) : Prop :=
  db.users.Pairwise (fun a b => a.email ≠ b.email)

/-- No two `users` rows share an id (`id` is the primary key). -/
def uniqueIds (db : DB) : Prop :=
  db.users.Pairwise (fun a b => a.id ≠ b.id)

/-- A legacy account whose stored credential is plain text. -/
def legacyUser : User :=
  { id := 1, email := "legacy@x.com", password := "secret123", role := "admin",
    first_name := "L", last_name := "U", phone := none, is_active := true,
    created_at := 0 }

/-- A one-account store holding only `legacyUser`. -/
def dbLegacy : DB :=
  { users := [legacyUser], students := [], classes := [], nextUserId := 2 }

/-- A student account (hashed credential). -/
def studentUser : User :=
  { id := 2, email := "stu@x.com", password := "$2b$12$somedigest",
    role := "student", first_name := "S", last_name := "T", phone := none,
    is_active := true, created_at := 1 }

/-- A two-account store: one admin, one student, no profiles. -/
def dbTwo : DB :=
  { users := [legacyUser, studentUser], students := [], classes := [],
    nextUserId := 3 }

/-- A well-formed creation request. -/
def reqJo : StudentReq :=
  { firstName := "Jo", lastName := "Doe", email := "jo@x.com", phone := "",
    grade := "5", sect := "A", rollNo := "", parentName := "", isActive := none }

/-- An empty store whose auto-increment counter has reached 1000 (a
four-digit account identifier). -/
def dbBig : DB :=
  { users := [], students := [], classes := [], nextUserId := 1000 }

/-- An update request reusing `legacyUser`'s email (for the conflict
path). -/
def reqConflict : StudentReq :=
  { firstName := "S", lastName := "T", email := "legacy@x.com", phone := "",
    grade := "", sect := "", rollNo := "", parentName := "", isActive := none }

/-- A profile row for `studentUser` with stored roll number, class link
and parent name. -/
def oldProfile : Student :=
  { user_id := 2, student_id := some "STU002", roll_number := some "R9",
    class_id := some 30, parent_name := some "P", parent_phone := none,
    address := none, admission_date := none, date_of_birth := none,
    is_active := true }

/-- `dbTwo` extended with `oldProfile`. -/
def dbProf : DB :=
  { users := [legacyUser, studentUser], students := [oldProfile],
    classes := [], nextUserId := 3 }

/-- An update request for `studentUser` that omits rollNo, grade,
section and parentName. -/
def reqClear : StudentReq :=
  { firstName := "S", lastName := "T", email := "stu@x.com", phone := "",
    grade := "", sect := "", rollNo := "", parentName := "", isActive := none }

/- ### Basic characterisations of the SQL existence checks -/

lemma emailExists_true_iff (db : DB) (e : String) :
    emailExists db e = true ↔ ∃ u ∈ db.users, u.email = e := by
  simp [emailExists]

lemma emailExists_false_iff (db : DB) (e : String) :
    emailExists db e = false ↔ ∀ u ∈ db.users, u.email ≠ e := by
  simp [emailExists]

lemma studentExists_true_iff (db : DB) (id : Nat) :
    studentExists db id = true ↔
      ∃ u ∈ db.users, u.id = id ∧ u.role = "student" := by
  simp [studentExists]

lemma emailUsedByOther_true_iff (db : DB) (e : String) (id : Nat) :
    emailUsedByOther db e id = true ↔
      ∃ u ∈ db.users, u.email = e ∧ u.id ≠ id := by
  simp [emailUsedByOther]

/-- C9: token verification distinguishes absence from invalidity — the
middleware answers 401 exactly when no token is presented (`extractToken`
yields none), answers 403 exactly when a token is presented but the
verifier rejects it, and hands back the embedded claims for a valid
token. -/
theorem authenticateToken_status_distinction
    (verify : String → Option JwtClaims) (h : Option String) :
    (authenticateToken verify h = .error 401 "Access token required" ↔
       extractToken h = none)
  ∧ (authenticateToken verify h = .error 403 "Invalid or expired token" ↔
       ∃ t, extractToken h = some t ∧ verify t = none)
  ∧ (∀ t c, extractToken h = some t → verify t = some c →
       authenticateToken verify h = .ok c) := by
  rcases hE : extractToken h with _ | t
  · simp [authenticateToken, hE]
  · rcases hV : verify t with _ | c
    · simp only [authenticateToken, hE, hV]
      refine ⟨by simp, by simp [hV], ?_⟩
      intro t' c ht hc
      injection ht with ht
      subst ht
      rw [hV] at hc
      cases hc
    · simp only [authenticateToken, hE, hV]
      refine ⟨by simp, by simp [hV], ?_⟩
      intro t' c' ht hc
      injection ht with ht
      subst ht
      rw [hV] at hc
      cases hc
      rfl

/-- Witness for C9 at a concrete header and verifier. -/
theorem authenticateToken_status_distinction_witness :
    extractToken (some "Bearer tok") = some "tok"
  ∧ authenticateToken (fun _ => none) (some "Bearer tok") =
      .error 403 "Invalid or expired token" :=
  ⟨by decide,
   ((authenticateToken_status_distinction (fun _ => none) (some "Bearer tok")).2.1).mpr
     ⟨"tok", by decide, rfl⟩⟩

/-- C8: login failures are observationally uniform — when no active
account matches the email, and when an account matches but the password
check fails, the handler returns the very same outcome (status 401,
message "Invalid email or password"). -/
theorem login_failure_uniform (bc : String → String → Bool) (db : DB)
    (e p : String) (he : e ≠ "") (hp : p ≠ "") :
    (findLoginUser db e = none →
       login bc db e p = .error 401 "Invalid email or password")
  ∧ (∀ u, findLoginUser db e = some u → passwordValid bc p u.password = false →
       login bc db e p = .error 401 "Invalid email or password") := by
  constructor
  · intro h; simp [login, he, hp, h]
  · intro u h hpw; simp [login, he, hp, h, hpw]

/-- Witness for C8: the missing-account outcome and the wrong-password
outcome at concrete inputs agree. -/
theorem login_failure_uniform_witness :
    login (fun _ _ => false) dbLegacy "nobody@x.com" "pw" =
      .error 401 "Invalid email or password"
  ∧ login (fun _ _ => false) dbLegacy "legacy@x.com" "wrong" =
      .error 401 "Invalid email or password" :=
  ⟨(login_failure_uniform (fun _ _ => false) dbLegacy "nobody@x.com" "pw"
      (by decide) (by decide)).1 (by decide),
   (login_failure_uniform (fun _ _ => false) dbLegacy "legacy@x.com" "wrong"
      (by decide) (by decide)).2 legacyUser (by decide) (by decide)⟩

/-- C2: the login handler selects the verifier by the structural marker
of the stored credential — login succeeds iff `passwordValid` accepts,
`passwordValid` is the bcrypt comparison when the stored value starts
with the `$2` marker, and is exact (case-sensitive) string equality
otherwise. -/
theorem login_dual_mode_check (bc : String → String → Bool) (db : DB)
    (e p : String) (he : e ≠ "") (hp : p ≠ "") (u : User)
    (hu : findLoginUser db e = some u) :
    ((∃ tok usr, login bc db e p = .ok tok usr) ↔
       passwordValid bc p u.password = true)
  ∧ (strStartsWith u.password "$2" = true →
       passwordValid bc p u.password = bc p u.password)
  ∧ (strStartsWith u.password "$2" = false →
       passwordValid bc p u.password = (p == u.password))
  ∧ ((p == u.password) = true ↔ p = u.password) := by
  refine ⟨?_, ?_, ?_, beq_iff_eq⟩
  · rcases hpw : passwordValid bc p u.password with _ | _ <;>
      simp [login, he, hp, hu, hpw]
  · intro hm; simp [passwordValid, hm]
  · intro hm; simp [passwordValid, hm]

/-- Witness for C2: on the concrete legacy (plain-text) account, login
with the exact stored string succeeds even under a bcrypt comparator
that always rejects. -/
theorem login_dual_mode_check_witness :
    passwordValid (fun _ _ => false) "secret123" legacyUser.password = true
  ∧ (∃ tok usr,
      login (fun _ _ => false) dbLegacy "legacy@x.com" "secret123" = .ok tok usr) :=
  ⟨by decide,
   ((login_dual_mode_check (fun _ _ => false) dbLegacy "legacy@x.com" "secret123"
      (by decide) (by decide) legacyUser (by decide)).1).mpr (by decide)⟩

/- ### C1: email uniqueness across all operations -/

/-- Appending a row with a fresh email keeps pairwise-distinct emails. -/
lemma pairwise_email_append (l : List User) (u : User)
    (hU : l.Pairwise (fun a b => a.email ≠ b.email))
    (hnew : ∀ w ∈ l, w.email ≠ u.email) :
    (l ++ [u]).Pairwise (fun a b => a.email ≠ b.email) := by
  refine List.pairwise_append.mpr ⟨hU, by simp, ?_⟩
  intro a ha b hb
  rw [List.mem_singleton] at hb
  subst hb
  exact hnew a ha

/-- C1: `register` and `createStudent` both answer 409 Conflict whenever
any account row (active or inactive) already holds the requested email,
and all four mutating operations preserve pairwise-distinct emails
(given the primary-key uniqueness of `users.id`). -/
theorem email_uniqueness_enforced_and_preserved (db : DB)
    (hIds : uniqueIds db) (hU : uniqueEmails db) :
    (∀ bch now e p fn ln rl ph, e ≠ "" → p ≠ "" → fn ≠ "" → ln ≠ "" → rl ≠ "" →
      (∃ u ∈ db.users, u.email = e) →
      register bch now db e p fn ln rl ph =
        (.error 409 "User with this email already exists", db))
  ∧ (∀ bch pOk now r, r.firstName ≠ "" → r.lastName ≠ "" → r.email ≠ "" →
      (∃ u ∈ db.users, u.email = r.email) →
      createStudent bch pOk now db r =
        (.error 409 "User with this email already exists", db))
  ∧ (∀ bch now e p fn ln rl ph,
      uniqueEmails (register bch now db e p fn ln rl ph).2)
  ∧ (∀ bch pOk now r, uniqueEmails (createStudent bch pOk now db r).2)
  ∧ (∀ pOk id r, uniqueEmails (updateStudent pOk db id r).2)
  ∧ (∀ pOk id, uniqueEmails (deleteStudent pOk db id).2) := by
  have hU' : db.users.Pairwise (fun a b => a.email ≠ b.email) := hU
  have hIds' : db.users.Pairwise (fun a b => a.id ≠ b.id) := hIds
  refine ⟨?_, ?_, ?_, ?_, ?_, ?_⟩
  · intro bch now e p fn ln rl ph he hp hfn hln hrl hex
    have h9 : emailExists db e = true := (emailExists_true_iff db e).mpr hex
    simp [register, he, hp, hfn, hln, hrl, h9]
  · intro bch pOk now r h1 h2 h3 hex
    have h9 : emailExists db r.email = true := (emailExists_true_iff db r.email).mpr hex
    simp [createStudent, h1, h2, h3, h9]
  · intro bch now e p fn ln rl ph
    unfold register
    split
    · exact hU
    · split
      · exact hU
      · rename_i hne
        rw [Bool.not_eq_true] at hne
        exact pairwise_email_append db.users
          { id := db.nextUserId, email := e, password := bch p, role := rl,
            first_name := fn, last_name := ln, phone := orNull ph,
            is_active := true, created_at := now } hU'
          (fun w hw => (emailExists_false_iff db e).mp hne w hw)
  · intro bch pOk now r
    unfold createStudent
    split
    · exact hU
    · split
      · exact hU
      · rename_i hne
        rw [Bool.not_eq_true] at hne
        have hfresh : ∀ w ∈ db.users, w.email ≠ r.email :=
          (emailExists_false_iff db r.email).mp hne
        cases pOk <;>
          exact pairwise_email_append db.users
            { id := db.nextUserId, email := r.email, password := bch "student123",
              role := "student", first_name := r.firstName, last_name := r.lastName,
              phone := orNull r.phone, is_active := r.isActive != some false,
              created_at := now } hU' hfresh
  · intro pOk id r
    unfold updateStudent
    split
    · exact hU
    · split
      · exact hU
      · split
        · exact hU
        · rename_i hno
          rw [Bool.not_eq_true] at hno
          have hno' : ∀ u ∈ db.users, u.email = r.email → u.id = id := by
            intro u hu he
            by_contra hne
            rw [← Bool.not_eq_true, emailUsedByOther_true_iff] at hno
            exact hno ⟨u, hu, he, hne⟩
          have key : (db.users.map (fun u =>
              if u.id == id && u.role == "student" then
                { u with first_name := r.firstName, last_name := r.lastName,
                         email := r.email, phone := orNull r.phone,
                         is_active := r.isActive != some false }
              else u)).Pairwise (fun a b => a.email ≠ b.email) := by
            rw [List.pairwise_map]
            refine (hIds'.and hU').imp_of_mem ?_
            intro a b ha hb hab
            obtain ⟨hid, hem⟩ := hab
            by_cases ca : (a.id == id && a.role == "student") = true
            · rw [if_pos ca]
              simp only [Bool.and_eq_true, beq_iff_eq] at ca
              by_cases cb : (b.id == id && b.role == "student") = true
              · exact absurd (by
                  simp only [Bool.and_eq_true, beq_iff_eq] at cb
                  exact ca.1.trans cb.1.symm) hid
              · rw [if_neg cb]
                intro hcontra
                have hbid : b.id = id := hno' b hb hcontra.symm
                exact hid (ca.1.trans hbid.symm)
            · rw [if_neg ca]
              by_cases cb : (b.id == id && b.role == "student") = true
              · rw [if_pos cb]
                simp only [Bool.and_eq_true, beq_iff_eq] at cb
                intro hcontra
                have haid : a.id = id := hno' a ha hcontra
                exact hid (haid.trans cb.1.symm)
              · rw [if_neg cb]
                exact hem
          cases pOk <;> exact key
  · intro pOk id
    unfold deleteStudent
    split
    · exact hU
    · have key : (db.users.map (fun u =>
          if u.id == id && u.role == "student" then { u with is_active := false }
          else u)).Pairwise (fun a b => a.email ≠ b.email) := by
        rw [List.pairwise_map]
        refine hU'.imp ?_
        intro a b hab
        by_cases ca : (a.id == id && a.role == "student") = true <;>
          by_cases cb : (b.id == id && b.role == "student") = true <;>
            simp [ca, cb, hab]
      cases pOk <;> exact key

/-- Witness for C1: a second registration of the already-stored email is
refused with 409 and the store is unchanged. -/
theorem email_uniqueness_enforced_and_preserved_witness :
    register (fun p => p) 5 dbLegacy "legacy@x.com" "pw" "A" "B" "student" "" =
      (.error 409 "User with this email already exists", dbLegacy) :=
  (email_uniqueness_enforced_and_preserved dbLegacy
      (by unfold uniqueIds dbLegacy; decide)
      (by unfold uniqueEmails dbLegacy; decide)).1
    (fun p => p) 5 "legacy@x.com" "pw" "A" "B" "student" ""
    (by decide) (by decide) (by decide) (by decide) (by decide)
    ⟨legacyUser, by decide, rfl⟩

/- ### C3: best-effort profile insert -/

/-- C3: on a valid request with a fresh email, when the profile insert
fails the handler still answers 201 with the fresh account id and the
generated student code, the account row is stored, and the `students`
table is untouched. -/
theorem createStudent_profile_failure_still_created
    (bch : String → String) (now : Nat) (db : DB) (r : StudentReq)
    (h1 : r.firstName ≠ "") (h2 : r.lastName ≠ "") (h3 : r.email ≠ "")
    (h4 : emailExists db r.email = false) :
    (createStudent bch false now db r).1 =
      .created db.nextUserId (createStudentCode db.nextUserId)
  ∧ (∃ u ∈ (createStudent bch false now db r).2.users,
      u.id = db.nextUserId ∧ u.email = r.email ∧ u.role = "student")
  ∧ (createStudent bch false now db r).2.students = db.students := by
  have hC : createStudent bch false now db r =
      (.created db.nextUserId (createStudentCode db.nextUserId),
       { db with
         users := db.users ++
           [{ id := db.nextUserId, email := r.email,
              password := bch "student123", role := "student",
              first_name := r.firstName, last_name := r.lastName,
              phone := orNull r.phone, is_active := r.isActive != some false,
              created_at := now }],
         nextUserId := db.nextUserId + 1 }) := by
    unfold createStudent
    rw [if_neg (by simp [h1, h2, h3]), if_neg (by simp [h4])]
    rfl
  rw [hC]
  exact ⟨rfl,
    ⟨_, List.mem_append_right _ (List.mem_singleton_self _), rfl, rfl, rfl⟩, rfl⟩

/-- Witness for C3 at a concrete store and request. -/
theorem createStudent_profile_failure_still_created_witness :
    (createStudent (fun p => p) false 7 dbLegacy reqJo).1 =
      .created dbLegacy.nextUserId (createStudentCode dbLegacy.nextUserId)
  ∧ (createStudent (fun p => p) false 7 dbLegacy reqJo).2.students =
      dbLegacy.students :=
  ⟨(createStudent_profile_failure_still_created (fun p => p) 7 dbLegacy reqJo
      (by decide) (by decide) (by decide) (by decide)).1,
   (createStudent_profile_failure_still_created (fun p => p) 7 dbLegacy reqJo
      (by decide) (by decide) (by decide) (by decide)).2.2⟩

/- ### C4: the two student-code computations -/

/-- Rebuilding a string from its character list is the identity. -/
lemma mk_toList (s : String) : String.mk s.toList = s := by cases s; rfl

/-- C4 counterexample: at account identifier 1000 the code returned by
`createStudent` is `STU1000` (JS `padStart` never truncates) while the
read-side fallback computed by `getStudent` on the store it created is
`STU100` (MySQL `LPAD` truncates to 3 characters), so the two disagree. -/
theorem student_code_fallback_mismatch_cex :
    (createStudent (fun p => p) false 0 dbBig reqJo).1 =
      .created 1000 (createStudentCode 1000)
  ∧ createStudentCode 1000 = "STU1000"
  ∧ ((getStudent (createStudent (fun p => p) false 0 dbBig reqJo).2 1000).toOption.map
       (fun v => v.student_id)) = some "STU100"
  ∧ viewFallbackCode 1000 = "STU100"
  ∧ viewFallbackCode 1000 ≠ createStudentCode 1000 := by decide

/-- C4 (amended): `createStudent` returns `STU` followed by the
identifier zero-padded to at least three digits; the read-side fallback
is the deterministic `STU` + `LPAD` pattern of the identifier, is what
the views report whenever the profile lacks a stored code, and agrees
with the code `createStudent` returned exactly for identifiers of at
most three decimal digits (for longer identifiers `LPAD` truncates). -/
theorem student_code_pattern (id : Nat) :
    createStudentCode id = "STU" ++ padStart (toString id) 3 '0'
  ∧ viewFallbackCode id = "STU" ++ lpad (toString id) 3 '0'
  ∧ ((toString id).length ≤ 3 → viewFallbackCode id = createStudentCode id)
  ∧ (∀ classes u s, s.bind (fun st => st.student_id) = none →
      (mkView classes u s).student_id = viewFallbackCode u.id) := by
  refine ⟨rfl, rfl, ?_, ?_⟩
  · intro h
    unfold viewFallbackCode createStudentCode lpad padStart
    rcases Nat.lt_or_ge (toString id).length 3 with hl | hl
    · rw [if_neg (by omega), if_neg (by omega)]
    · have h3 : (toString id).length = 3 := Nat.le_antisymm h hl
      rw [if_pos (by omega), if_pos (by omega)]
      have htake : (toString id).toList.take 3 = (toString id).toList :=
        List.take_of_length_le (by
          have : (toString id).toList.length = (toString id).length := by
            cases toString id; rfl
          omega)
      rw [htake, mk_toList]
  · intro classes u s h
    simp [mkView, h]

/-- Witness for C4 (amended) at a three-digit-or-less identifier. -/
theorem student_code_pattern_witness :
    (toString (7 : Nat)).length ≤ 3 ∧ viewFallbackCode 7 = createStudentCode 7 :=
  ⟨by decide, (student_code_pattern 7).2.2.1 (by decide)⟩

/- ### C5: soft delete and its idempotence -/

/-- `deleteStudent` when no student account row matches. -/
lemma deleteStudent_not_found (db : DB) (id : Nat) (pOk : Bool)
    (h : studentExists db id = false) :
    deleteStudent pOk db id = (.error 404 "Student not found", db) := by
  unfold deleteStudent
  rw [if_pos h]

/-- `deleteStudent` when a student account row matches: the full
resulting state. -/
lemma deleteStudent_found_eq (db : DB) (id : Nat) (pOk : Bool)
    (h : studentExists db id = true) :
    deleteStudent pOk db id =
      (.ok "Student deleted successfully",
       { db with
         users := db.users.map (fun u =>
           if u.id == id && u.role == "student" then { u with is_active := false }
           else u),
         students :=
           if pOk then db.students.map (fun s =>
             if s.user_id == id then { s with is_active := false } else s)
           else db.students }) := by
  unfold deleteStudent
  rw [if_neg (by simp [h])]
  cases pOk <;> rfl

/-- After the soft-delete map, every matching student row is inactive. -/
lemma map_deactivate_active_false (l : List User) (id : Nat) :
    ∀ v ∈ l.map (fun u =>
      if u.id == id && u.role == "student" then { u with is_active := false }
      else u), v.id = id → v.role = "student" → v.is_active = false := by
  intro v hv hid hrole
  obtain ⟨u, hu, hfu⟩ := List.mem_map.mp hv
  by_cases c : (u.id == id && u.role == "student") = true
  · rw [if_pos c] at hfu
    subst hfu
    rfl
  · rw [if_neg c] at hfu
    subst hfu
    exact absurd (by simp [hid, hrole]) c

/-- C5: deleteStudent answers 404 exactly when no account row with that
id and role student exists at all (inactive rows still count as
existing); on an existing student account it soft-deletes (active flag
false, no row removed) and a second call on the same id still succeeds
with the flag still false. -/
theorem deleteStudent_idempotent (db : DB) (id : Nat) (pOk pOk2 : Bool) :
    ((deleteStudent pOk db id).1 = .error 404 "Student not found" ↔
       ¬ ∃ u ∈ db.users, u.id = id ∧ u.role = "student")
  ∧ ((∃ u ∈ db.users, u.id = id ∧ u.role = "student") →
       (deleteStudent pOk db id).1 = .ok "Student deleted successfully"
     ∧ (deleteStudent pOk db id).2.users.length = db.users.length
     ∧ (∀ v ∈ (deleteStudent pOk db id).2.users,
          v.id = id → v.role = "student" → v.is_active = false)
     ∧ (deleteStudent pOk2 (deleteStudent pOk db id).2 id).1 =
         .ok "Student deleted successfully"
     ∧ (∀ v ∈ (deleteStudent pOk2 (deleteStudent pOk db id).2 id).2.users,
          v.id = id → v.role = "student" → v.is_active = false)) := by
  constructor
  · cases hex : studentExists db id
    · rw [deleteStudent_not_found db id pOk hex]
      have hno : ¬ ∃ u ∈ db.users, u.id = id ∧ u.role = "student" := by
        rw [← studentExists_true_iff]
        simp [hex]
      simp [hno]
    · rw [deleteStudent_found_eq db id pOk hex]
      have hyes := (studentExists_true_iff db id).mp hex
      simp [hyes]
  · intro hex'
    have hexB : studentExists db id = true := (studentExists_true_iff db id).mpr hex'
    obtain ⟨u, hu, huid, hurole⟩ := hex'
    have humem : ({ u with is_active := false } : User) ∈
        (deleteStudent pOk db id).2.users := by
      rw [deleteStudent_found_eq db id pOk hexB]
      dsimp only
      refine List.mem_map.mpr ⟨u, hu, ?_⟩
      rw [if_pos (by simp [huid, hurole])]
    have hexB2 : studentExists (deleteStudent pOk db id).2 id = true := by
      rw [studentExists_true_iff]
      exact ⟨{ u with is_active := false }, humem, huid, hurole⟩
    refine ⟨?_, ?_, ?_, ?_, ?_⟩
    · rw [deleteStudent_found_eq db id pOk hexB]
    · rw [deleteStudent_found_eq db id pOk hexB]
      exact List.length_map _ _
    · rw [deleteStudent_found_eq db id pOk hexB]
      exact map_deactivate_active_false db.users id
    · rw [deleteStudent_found_eq _ id pOk2 hexB2]
    · rw [deleteStudent_found_eq _ id pOk2 hexB2]
      dsimp only
      exact map_deactivate_active_false _ id

/-- Witness for C5: deleting the concrete student account twice succeeds
both times. -/
theorem deleteStudent_idempotent_witness :
    (deleteStudent true dbTwo 2).1 = .ok "Student deleted successfully"
  ∧ (deleteStudent true (deleteStudent true dbTwo 2).2 2).1 =
      .ok "Student deleted successfully" :=
  ⟨((deleteStudent_idempotent dbTwo 2 true true).2
      ⟨studentUser, by decide, rfl, rfl⟩).1,
   ((deleteStudent_idempotent dbTwo 2 true true).2
      ⟨studentUser, by decide, rfl, rfl⟩).2.2.2.1⟩

/- ### C6: update conflict leaves the store unchanged -/

/-- C6: on a well-formed update of an existing student whose requested
email is already held by a different account identifier, `updateStudent`
answers 409 Conflict and returns the store completely unchanged (no
account or profile row modified). -/
theorem updateStudent_conflict_unchanged (pOk : Bool) (db : DB) (id : Nat)
    (r : StudentReq)
    (h1 : r.firstName ≠ "") (h2 : r.lastName ≠ "") (h3 : r.email ≠ "")
    (hex : ∃ u ∈ db.users, u.id = id ∧ u.role = "student")
    (hconf : ∃ u ∈ db.users, u.email = r.email ∧ u.id ≠ id) :
    updateStudent pOk db id r =
      (.error 409 "Email already in use by another user", db) := by
  have hexB : studentExists db id = true := (studentExists_true_iff db id).mpr hex
  have hcB : emailUsedByOther db r.email id = true :=
    (emailUsedByOther_true_iff db r.email id).mpr hconf
  unfold updateStudent
  rw [if_neg (by simp [h1, h2, h3]), if_neg (by simp [hexB]), if_pos hcB]

/-- Witness for C6: updating the concrete student with the admin's email
is refused and the two-account store is returned as-is. -/
theorem updateStudent_conflict_unchanged_witness :
    updateStudent true dbTwo 2 reqConflict =
      (.error 409 "Email already in use by another user", dbTwo) :=
  updateStudent_conflict_unchanged true dbTwo 2 reqConflict
    (by decide) (by decide) (by decide)
    ⟨studentUser, by decide, rfl, rfl⟩
    ⟨legacyUser, by decide, rfl, by decide⟩

/- ### C7: active-flag asymmetry of the two reads -/

/-- A left join always yields at least one row per left-side row. -/
lemma leftJoinProfiles_ne_nil (db : DB) (u : User) :
    leftJoinProfiles db u ≠ [] := by
  unfold leftJoinProfiles
  cases db.students.filter (fun s => s.user_id == u.id) <;> simp

/-- `getStudent` succeeds whenever some account row has the requested id
and role student, whatever its active flag. -/
lemma getStudent_ok_of_exists (db : DB) (id : Nat)
    (hex : ∃ u ∈ db.users, u.id = id ∧ u.role = "student") :
    ∃ v, getStudent db id = .ok v := by
  obtain ⟨u, hu, hid, hrole⟩ := hex
  have hmem : u ∈ db.users.filter (fun w => w.id == id && w.role == "student") :=
    List.mem_filter.mpr ⟨hu, by simp [hid, hrole]⟩
  obtain ⟨s, hs⟩ := List.exists_mem_of_ne_nil _ (leftJoinProfiles_ne_nil db u)
  have hrow : mkView db.classes u s ∈
      studentJoinRows db (fun w => w.id == id && w.role == "student") := by
    unfold studentJoinRows
    exact List.mem_flatMap.mpr ⟨u, hmem, List.mem_map_of_mem _ hs⟩
  have hne : studentJoinRows db (fun w => w.id == id && w.role == "student") ≠ [] :=
    List.ne_nil_of_mem hrow
  unfold getStudent
  rcases hh : (studentJoinRows db (fun w => w.id == id && w.role == "student")).head?
    with _ | v
  · exact absurd (List.head?_eq_none_iff.mp hh) hne
  · exact ⟨v, rfl⟩

/-- C7: `listStudents` only ever returns views of active student
accounts, while `getStudent` succeeds for any student account row
irrespective of its active flag — including one just soft-deleted by
`deleteStudent`. -/
theorem list_active_get_any_asymmetry (db : DB) :
    (∀ v ∈ listStudents db, v.is_active = true ∧
       ∃ u ∈ db.users, u.id = v.id ∧ u.role = "student" ∧ u.is_active = true)
  ∧ (∀ id, (∃ u ∈ db.users, u.id = id ∧ u.role = "student") →
       ∃ v, getStudent db id = .ok v)
  ∧ (∀ id pOk, (∃ u ∈ db.users, u.id = id ∧ u.role = "student") →
       ∃ v, getStudent (deleteStudent pOk db id).2 id = .ok v) := by
  refine ⟨?_, ?_, ?_⟩
  · intro v hv
    rw [listStudents, List.mem_mergeSort] at hv
    unfold studentJoinRows at hv
    obtain ⟨u, hu, hview⟩ := List.mem_flatMap.mp hv
    obtain ⟨hu_mem, hu_p⟩ := List.mem_filter.mp hu
    obtain ⟨s, hs, hmk⟩ := List.mem_map.mp hview
    simp only [Bool.and_eq_true, beq_iff_eq] at hu_p
    subst hmk
    exact ⟨hu_p.2, u, hu_mem, rfl, hu_p.1, hu_p.2⟩
  · intro id hex
    exact getStudent_ok_of_exists db id hex
  · intro id pOk hex
    obtain ⟨u, hu, hid, hrole⟩ := hex
    have hexB : studentExists db id = true :=
      (studentExists_true_iff db id).mpr ⟨u, hu, hid, hrole⟩
    refine getStudent_ok_of_exists _ id ?_
    rw [deleteStudent_found_eq db id pOk hexB]
    dsimp only
    refine ⟨{ u with is_active := false }, ?_, hid, hrole⟩
    exact List.mem_map.mpr ⟨u, hu, by rw [if_pos (by simp [hid, hrole])]⟩

/-- Witness for C7: the concrete student is served by `getStudent` both
before and after being soft-deleted. -/
theorem list_active_get_any_asymmetry_witness :
    (∃ v, getStudent dbTwo 2 = .ok v)
  ∧ (∃ v, getStudent (deleteStudent true dbTwo 2).2 2 = .ok v) :=
  ⟨(list_active_get_any_asymmetry dbTwo).2.1 2 ⟨studentUser, by decide, rfl, rfl⟩,
   (list_active_get_any_asymmetry dbTwo).2.2 2 true
     ⟨studentUser, by decide, rfl, rfl⟩⟩

/- ### C10: update overwrites the profile columns unconditionally -/

/-- `updateStudent` on the success path: the full resulting state. -/
lemma updateStudent_success_eq (db : DB) (id : Nat) (r : StudentReq) (pOk : Bool)
    (h1 : r.firstName ≠ "") (h2 : r.lastName ≠ "") (h3 : r.email ≠ "")
    (hex : studentExists db id = true)
    (hconf : emailUsedByOther db r.email id = false) :
    updateStudent pOk db id r =
      (.ok "Student updated successfully",
       { db with
         users := db.users.map (fun u =>
           if u.id == id && u.role == "student" then
             { u with first_name := r.firstName, last_name := r.lastName,
                      email := r.email, phone := orNull r.phone,
                      is_active := r.isActive != some false }
           else u),
         students :=
           if pOk then db.students.map (fun s =>
             if s.user_id == id then
               { s with roll_number := orNull r.rollNo,
                        class_id := resolveClassId db.classes r.grade r.sect,
                        parent_name := orNull r.parentName }
             else s)
           else db.students }) := by
  unfold updateStudent
  rw [if_neg (by simp [h1, h2, h3]), if_neg (by simp [hex]),
      if_neg (by simp [hconf])]
  cases pOk <;> rfl

/-- C10: on the success path with the profile update reachable, every
profile row of the target account has its roll number, class link and
parent name overwritten with the request-derived values — in particular
set to NULL when the corresponding request field is absent (and the
class link whenever grade or section is missing or no active class
matches). -/
theorem updateStudent_overwrites_profile_fields (db : DB) (id : Nat)
    (r : StudentReq)
    (h1 : r.firstName ≠ "") (h2 : r.lastName ≠ "") (h3 : r.email ≠ "")
    (hex : studentExists db id = true)
    (hconf : emailUsedByOther db r.email id = false) :
    ∀ s ∈ (updateStudent true db id r).2.students, s.user_id = id →
      s.roll_number = orNull r.rollNo
      ∧ s.parent_name = orNull r.parentName
      ∧ s.class_id = resolveClassId db.classes r.grade r.sect
      ∧ (r.rollNo = "" → s.roll_number = none)
      ∧ (r.parentName = "" → s.parent_name = none)
      ∧ ((r.grade = "" ∨ r.sect = "" ∨ findClass db.classes r.grade r.sect = none) →
          s.class_id = none) := by
  rw [updateStudent_success_eq db id r true h1 h2 h3 hex hconf]
  dsimp only
  rw [if_pos rfl]
  intro s hs hsid
  obtain ⟨s0, hs0, hfs⟩ := List.mem_map.mp hs
  by_cases c : (s0.user_id == id) = true
  · rw [if_pos c] at hfs
    subst hfs
    refine ⟨rfl, rfl, rfl, ?_, ?_, ?_⟩
    · intro h
      simp [orNull, h]
    · intro h
      simp [orNull, h]
    · intro h
      rcases h with h | h | h
      · simp [resolveClassId, h]
      · simp [resolveClassId, h]
      · unfold resolveClassId
        split
        · exact h
        · rfl
  · rw [if_neg c] at hfs
    subst hfs
    exact absurd (by simp [hsid]) c

/-- Witness for C10: on the concrete store, the request that omits
rollNo, grade/section and parentName clears the previously stored
profile values. -/
theorem updateStudent_overwrites_profile_fields_witness :
    ∃ s ∈ (updateStudent true dbProf 2 reqClear).2.students,
      s.roll_number = none ∧ s.parent_name = none ∧ s.class_id = none := by
  have hmem :
      ({ user_id := 2, student_id := some "STU002", roll_number := none,
         class_id := none, parent_name := none, parent_phone := none,
         address := none, admission_date := none, date_of_birth := none,
         is_active := true } : Student) ∈
        (updateStudent true dbProf 2 reqClear).2.students := by decide
  have hprops := updateStudent_overwrites_profile_fields dbProf 2 reqClear
    (by decide) (by decide) (by decide) (by decide) (by decide) _ hmem rfl
  exact ⟨_, hmem, hprops.2.2.2.1 rfl, hprops.2.2.2.2.1 rfl,
    hprops.2.2.2.2.2 (Or.inl rfl)⟩

end SchoolMS
